import Mathlib

/-!
Verification of the SERCA_MCMC repository: a fixed-timestep Monte-Carlo
simulator of the SERCA pump reaction cycle together with a particle-swarm
optimizer that fits four transition rates against an experimental
calcium-binding curve.

The C++ sources are shallowly embedded here: machine floating-point values
are modelled as rationals (`ℚ`), the square root taken at the very end of
the residual computation is `Real.sqrt`, array-indexed loops become folds,
and each call to `rand()/RAND_MAX` becomes an explicit rational argument
in `[0,1)`.
-/

namespace SERCA

/-- All by-reference parameters of the 16-state `update_States`
(file `update_States.cpp`), in the order of the C signature.  The mutable
current state is the `state` field; every float parameter becomes a `ℚ`
field. -/
structure Params16 where
  state : ℕ
  dt : ℚ
  Ca_cyt_conc : ℚ
  Ca_sr_conc : ℚ
  Pi_conc : ℚ
  MgATP_conc : ℚ
  k_S0_S1 : ℚ
  k_S1_S0 : ℚ
  k_S0_S1a : ℚ
  k_S1a_S0 : ℚ
  k_S1_S2 : ℚ
  k_S2_S1 : ℚ
  k_S1_S2a : ℚ
  k_S2a_S1 : ℚ
  k_S1a_S2a : ℚ
  k_S2a_S1a : ℚ
  k_S2_S3 : ℚ
  k_S3_S2 : ℚ
  k_S2_S3a : ℚ
  k_S3a_S2 : ℚ
  k_S2a_S3a : ℚ
  k_S3a_S2a : ℚ
  k_S3_S4 : ℚ
  k_S4_S3 : ℚ
  k_S3a_S4 : ℚ
  k_S4_S3a : ℚ
  k_S4_S5 : ℚ
  k_S5_S4 : ℚ
  k_S5_S6a : ℚ
  k_S6a_S5 : ℚ
  k_S5_S6 : ℚ
  k_S6_S5 : ℚ
  k_S6a_S7 : ℚ
  k_S7_S6a : ℚ
  k_S6_S7 : ℚ
  k_S7_S6 : ℚ
  k_S7_S8 : ℚ
  k_S8_S7 : ℚ
  k_S8_S9 : ℚ
  k_S9_S8 : ℚ
  k_S9_S10 : ℚ
  k_S10_S9 : ℚ
  k_S10_S11 : ℚ
  k_S11_S10 : ℚ
  k_S11_S0 : ℚ
  k_S0_S11 : ℚ
  MgADP_conc : ℚ

/-- A `Params16` record with every numeric field zero; concrete test
inputs are built by updating the few fields they need. -/
def zero16 : Params16 :=
  { state := 0, dt := 0, Ca_cyt_conc := 0, Ca_sr_conc := 0, Pi_conc := 0
    MgATP_conc := 0, k_S0_S1 := 0, k_S1_S0 := 0, k_S0_S1a := 0, k_S1a_S0 := 0
    k_S1_S2 := 0, k_S2_S1 := 0, k_S1_S2a := 0, k_S2a_S1 := 0, k_S1a_S2a := 0
    k_S2a_S1a := 0, k_S2_S3 := 0, k_S3_S2 := 0, k_S2_S3a := 0, k_S3a_S2 := 0
    k_S2a_S3a := 0, k_S3a_S2a := 0, k_S3_S4 := 0, k_S4_S3 := 0, k_S3a_S4 := 0
    k_S4_S3a := 0, k_S4_S5 := 0, k_S5_S4 := 0, k_S5_S6a := 0, k_S6a_S5 := 0
    k_S5_S6 := 0, k_S6_S5 := 0, k_S6a_S7 := 0, k_S7_S6a := 0, k_S6_S7 := 0
    k_S7_S6 := 0, k_S7_S8 := 0, k_S8_S7 := 0, k_S8_S9 := 0, k_S9_S8 := 0
    k_S9_S10 := 0, k_S10_S9 := 0, k_S10_S11 := 0, k_S11_S10 := 0
    k_S11_S0 := 0, k_S0_S11 := 0, MgADP_conc := 0 }

/-- State-0 block of `update_States.cpp` (lines 203-220): probabilities and
targets exactly as written. -/
def uS0 (a : Params16) (randNum : ℚ) : ℕ :=
  if randNum < a.k_S0_S1 * a.Ca_cyt_conc * a.dt then 1
  else if randNum < a.k_S0_S1 * a.Ca_cyt_conc * a.dt + a.k_S0_S11 * a.Pi_conc * a.dt then 12
  else if randNum < a.k_S0_S1 * a.Ca_cyt_conc * a.dt + a.k_S0_S11 * a.Pi_conc * a.dt + a.k_S0_S1a * a.MgATP_conc * a.dt then 13 else a.state

/-- State-1 block (lines 237-254); note the `Pi_conc` factor the source
puts on the backward rate. -/
def uS1 (a : Params16) (randNum : ℚ) : ℕ :=
  if randNum < a.k_S1_S2 * a.dt then 2
  else if randNum < a.k_S1_S2 * a.dt + a.k_S1_S0 * a.Pi_conc * a.dt then 0
  else if randNum < a.k_S1_S2 * a.dt + a.k_S1_S0 * a.Pi_conc * a.dt + a.k_S1_S2a * a.MgATP_conc * a.dt then 14 else a.state

/-- State-2 block (lines 266-284). -/
def uS2 (a : Params16) (randNum : ℚ) : ℕ :=
  if randNum < a.k_S2_S3 * a.Ca_cyt_conc * a.dt then 3
  else if randNum < a.k_S2_S3 * a.Ca_cyt_conc * a.dt + a.k_S2_S1 * a.dt then 1
  else if randNum < a.k_S2_S3 * a.Ca_cyt_conc * a.dt + a.k_S2_S1 * a.dt + a.k_S2_S3a * a.MgATP_conc * a.dt then 13 else a.state

/-- State-3 block (lines 299-311). -/
def uS3 (a : Params16) (randNum : ℚ) : ℕ :=
  if randNum < a.k_S3_S4 * a.MgATP_conc * a.dt then 4
  else if randNum < a.k_S3_S4 * a.MgATP_conc * a.dt + a.k_S3_S2 * a.dt then 2 else a.state

/-- State-4 block (lines 330-347). -/
def uS4 (a : Params16) (randNum : ℚ) : ℕ :=
  if randNum < a.k_S4_S5 * a.MgATP_conc * a.dt then 5
  else if randNum < a.k_S4_S5 * a.MgATP_conc * a.dt + a.k_S4_S3 * a.dt then 3
  else if randNum < a.k_S4_S5 * a.MgATP_conc * a.dt + a.k_S4_S3 * a.dt + a.k_S4_S3a * a.dt then 15 else a.state

/-- State-5 block (lines 370-387). -/
def uS5 (a : Params16) (randNum : ℚ) : ℕ :=
  if randNum < a.k_S5_S6a * a.dt then 6
  else if randNum < a.k_S5_S6a * a.dt + a.k_S5_S4 * a.dt then 8
  else if randNum < a.k_S5_S6a * a.dt + a.k_S5_S4 * a.dt + a.k_S5_S6 * a.dt then 4 else a.state

/-- State-6 block (lines 408-420). -/
def uS6 (a : Params16) (randNum : ℚ) : ℕ :=
  if randNum < a.k_S6a_S7 * a.dt then 7
  else if randNum < a.k_S6a_S7 * a.dt + a.k_S6a_S5 * a.dt then 5 else a.state

/-- State-7 block (lines 439-456). -/
def uS7 (a : Params16) (randNum : ℚ) : ℕ :=
  if randNum < a.k_S7_S8 * a.dt then 9
  else if randNum < a.k_S7_S8 * a.dt + a.k_S7_S6a * a.MgADP_conc * a.dt then 6
  else if randNum < a.k_S7_S8 * a.dt + a.k_S7_S6a * a.MgADP_conc * a.dt + a.k_S7_S6 * a.dt then 8 else a.state

/-- State-8 block (lines 478-490). -/
def uS8 (a : Params16) (randNum : ℚ) : ℕ :=
  if randNum < a.k_S6_S7 * a.dt then 7
  else if randNum < a.k_S6_S7 * a.dt + a.k_S6_S5 * a.dt then 5 else a.state

/-- State-9 block (lines 502-514); the source multiplies the forward rate
by `MgATP_conc` here. -/
def uS9 (a : Params16) (randNum : ℚ) : ℕ :=
  if randNum < a.k_S8_S9 * a.MgATP_conc * a.dt then 10
  else if randNum < a.k_S8_S9 * a.MgATP_conc * a.dt + a.k_S8_S7 * a.dt then 7 else a.state

/-- State-10 block (lines 527-539).  The source assigns
`p2 = k_S9_S8 * Ca_sr_conc * dt` WITHOUT adding `p1`. -/
def uS10 (a : Params16) (randNum : ℚ) : ℕ :=
  if randNum < a.k_S9_S10 * a.dt then 11
  else if randNum < a.k_S9_S8 * a.Ca_sr_conc * a.dt then 9 else a.state

/-- State-11 block (lines 552-564).  `p2` again omits `p1`. -/
def uS11 (a : Params16) (randNum : ℚ) : ℕ :=
  if randNum < a.k_S10_S11 * a.dt then 12
  else if randNum < a.k_S10_S9 * a.Ca_sr_conc * a.dt then 10 else a.state

/-- State-12 block (lines 576-588).  `p2` again omits `p1`. -/
def uS12 (a : Params16) (randNum : ℚ) : ℕ :=
  if randNum < a.k_S11_S0 * a.dt then 0
  else if randNum < a.k_S11_S10 * a.dt then 11 else a.state

/-- State-13 block (lines 608-620). -/
def uS13 (a : Params16) (randNum : ℚ) : ℕ :=
  if randNum < a.k_S1a_S2a * a.Ca_cyt_conc * a.dt then 14
  else if randNum < a.k_S1a_S2a * a.Ca_cyt_conc * a.dt + a.k_S1a_S0 * a.dt then 0 else a.state

/-- State-14 block (lines 639-656). -/
def uS14 (a : Params16) (randNum : ℚ) : ℕ :=
  if randNum < a.k_S2a_S3a * a.dt then 15
  else if randNum < a.k_S2a_S3a * a.dt + a.k_S2a_S1a * a.dt then 13
  else if randNum < a.k_S2a_S3a * a.dt + a.k_S2a_S1a * a.dt + a.k_S2a_S1 * a.dt then 1 else a.state

/-- State-15 block (lines 670-687). -/
def uS15 (a : Params16) (randNum : ℚ) : ℕ :=
  if randNum < a.k_S3a_S4 * a.Ca_cyt_conc * a.dt then 4
  else if randNum < a.k_S3a_S4 * a.Ca_cyt_conc * a.dt + a.k_S3a_S2a * a.dt then 14
  else if randNum < a.k_S3a_S4 * a.Ca_cyt_conc * a.dt + a.k_S3a_S2a * a.dt + a.k_S3a_S2 * a.dt then 2 else a.state

/-- The 16-state Markov single-step update of `update_States.cpp`
(lines 174-690), returning the new value of the `state` reference.
Every branch block of the C body tests the snapshot `current_state`, so
the blocks are mutually exclusive and translate to one decision chain
over the per-state blocks above.  `randNum` is the one uniform draw of
the call. -/
def update_States (a : Params16) (randNum : ℚ) : ℕ :=
  match a.state with
  | 0 => uS0 a randNum
  | 1 => uS1 a randNum
  | 2 => uS2 a randNum
  | 3 => uS3 a randNum
  | 4 => uS4 a randNum
  | 5 => uS5 a randNum
  | 6 => uS6 a randNum
  | 7 => uS7 a randNum
  | 8 => uS8 a randNum
  | 9 => uS9 a randNum
  | 10 => uS10 a randNum
  | 11 => uS11 a randNum
  | 12 => uS12 a randNum
  | 13 => uS13 a randNum
  | 14 => uS14 a randNum
  | 15 => uS15 a randNum
  | _ => a.state

/-- Modelled from the spec: the state-10 step with the cumulative `p2`
the specification describes (`p2 = p1 + rate * conc * dt`), same edge
order and targets as the code. -/
def specS10 (a : Params16) (randNum : ℚ) : ℕ :=
  if randNum < a.k_S9_S10 * a.dt then 11
  else if randNum < a.k_S9_S10 * a.dt + a.k_S9_S8 * a.Ca_sr_conc * a.dt then 9 else a.state

/-- Modelled from the spec: the state-11 step with the cumulative `p2`. -/
def specS11 (a : Params16) (randNum : ℚ) : ℕ :=
  if randNum < a.k_S10_S11 * a.dt then 12
  else if randNum < a.k_S10_S11 * a.dt + a.k_S10_S9 * a.Ca_sr_conc * a.dt then 10 else a.state

/-- Modelled from the spec: the state-12 step with the cumulative `p2`. -/
def specS12 (a : Params16) (randNum : ℚ) : ℕ :=
  if randNum < a.k_S11_S0 * a.dt then 0
  else if randNum < a.k_S11_S0 * a.dt + a.k_S11_S10 * a.dt then 11 else a.state

/-- Modelled from the spec: the cumulative-probability selection scheme
the specification describes for `update_States` ("compute cumulative
transition probabilities p1, p2, p3 ... as a cumulative sum over the
outgoing edges in the written order").  It agrees with the code at every
state except 10, 11 and 12, where the spec demands `p2 = p1 + term`
while the code assigns the raw term. -/
def specCumulativeNext (a : Params16) (randNum : ℚ) : ℕ :=
  match a.state with
  | 0 => uS0 a randNum
  | 1 => uS1 a randNum
  | 2 => uS2 a randNum
  | 3 => uS3 a randNum
  | 4 => uS4 a randNum
  | 5 => uS5 a randNum
  | 6 => uS6 a randNum
  | 7 => uS7 a randNum
  | 8 => uS8 a randNum
  | 9 => uS9 a randNum
  | 10 => specS10 a randNum
  | 11 => specS11 a randNum
  | 12 => specS12 a randNum
  | 13 => uS13 a randNum
  | 14 => uS14 a randNum
  | 15 => uS15 a randNum
  | _ => a.state

/-- Concrete input exhibiting the non-cumulative `p2` of state 10:
`k_S9_S10 * dt = 1/2` and `k_S9_S8 * Ca_sr_conc * dt = 2/5`. -/
def bugInput10 : Params16 :=
  { zero16 with
    state := 10
    dt := 1
    Ca_sr_conc := 1
    k_S9_S10 := 1/2
    k_S9_S8 := 2/5 }

/-- C1: at state 10 with edge terms 1/2 (to state 11) and 2/5 (to state 9)
and draw u = 3/5, the code leaves the molecule in state 10 because it
assigns `p2 = k_S9_S8 * Ca_sr_conc * dt = 2/5` without adding `p1`,
whereas the cumulative scheme stated by the claim (and by the file's own
worked template) yields `p2 = 9/10` and moves the molecule to state 9. -/
theorem C1_cumulative_bug_eval :
    update_States bugInput10 (3/5) = 10 ∧
    specCumulativeNext bugInput10 (3/5) = 9 := by
  constructor <;>
  · simp only [update_States, specCumulativeNext, uS10, specS10,
      bugInput10, zero16]
    norm_num

/-- Each per-state block returns a state below 16 whenever the incoming
state is below 16: every explicit target is a literal below 16 and the
fall-through branch keeps the state. -/
lemma uS_lt_16 (a : Params16) (u : ℚ) (h : a.state < 16) :
    uS0 a u < 16 ∧ uS1 a u < 16 ∧ uS2 a u < 16 ∧ uS3 a u < 16 ∧
    uS4 a u < 16 ∧ uS5 a u < 16 ∧ uS6 a u < 16 ∧ uS7 a u < 16 ∧
    uS8 a u < 16 ∧ uS9 a u < 16 ∧ uS10 a u < 16 ∧ uS11 a u < 16 ∧
    uS12 a u < 16 ∧ uS13 a u < 16 ∧ uS14 a u < 16 ∧ uS15 a u < 16 := by
  unfold uS0 uS1 uS2 uS3 uS4 uS5 uS6 uS7 uS8 uS9 uS10 uS11 uS12 uS13
    uS14 uS15
  refine ⟨?_, ?_, ?_, ?_, ?_, ?_, ?_, ?_, ?_, ?_, ?_, ?_, ?_, ?_, ?_, ?_⟩ <;>
    split_ifs <;> omega

/-- C6: for every parameter record whose current state lies in [0,16) and
every random draw, the state written back by `update_States` lies in
[0,16): the state machine is closed over its 16 states. -/
theorem C6_state_closure (a : Params16) (u : ℚ) (h : a.state < 16) :
    update_States a u < 16 := by
  obtain ⟨h0, h1, h2, h3, h4, h5, h6, h7, h8, h9, h10, h11, h12, h13, h14,
    h15⟩ := uS_lt_16 a u h
  unfold update_States
  generalize a.state = s at h ⊢
  interval_cases s
  exacts [h0, h1, h2, h3, h4, h5, h6, h7, h8, h9, h10, h11, h12, h13, h14,
    h15]

/-- C6 witness: the closure theorem applied at the concrete state-10 input
with draw 3/5. -/
theorem C6_state_closure_witness :
    bugInput10.state < 16 ∧ update_States bugInput10 (3/5) < 16 :=
  ⟨by norm_num [bugInput10, zero16],
   C6_state_closure bugInput10 (3/5) (by norm_num [bugInput10, zero16])⟩

/-- One full call of `update_States` seen through its by-reference
interface: the C function receives every argument by reference and the
body assigns only `state`, so the call maps the parameter record to the
same record with the `state` field replaced. -/
def update_States_call (a : Params16) (randNum : ℚ) : Params16 :=
  { a with state := update_States a randNum }

/-- C10: a call to `update_States` mutates only its `state` argument;
each of the other 46 by-reference arguments (dt, the concentrations and
all rate constants) holds the same value after the call as before it. -/
theorem C10_frame (a : Params16) (u : ℚ) :
    (update_States_call a u).dt = a.dt ∧
    (update_States_call a u).Ca_cyt_conc = a.Ca_cyt_conc ∧
    (update_States_call a u).Ca_sr_conc = a.Ca_sr_conc ∧
    (update_States_call a u).Pi_conc = a.Pi_conc ∧
    (update_States_call a u).MgATP_conc = a.MgATP_conc ∧
    (update_States_call a u).k_S0_S1 = a.k_S0_S1 ∧
    (update_States_call a u).k_S1_S0 = a.k_S1_S0 ∧
    (update_States_call a u).k_S0_S1a = a.k_S0_S1a ∧
    (update_States_call a u).k_S1a_S0 = a.k_S1a_S0 ∧
    (update_States_call a u).k_S1_S2 = a.k_S1_S2 ∧
    (update_States_call a u).k_S2_S1 = a.k_S2_S1 ∧
    (update_States_call a u).k_S1_S2a = a.k_S1_S2a ∧
    (update_States_call a u).k_S2a_S1 = a.k_S2a_S1 ∧
    (update_States_call a u).k_S1a_S2a = a.k_S1a_S2a ∧
    (update_States_call a u).k_S2a_S1a = a.k_S2a_S1a ∧
    (update_States_call a u).k_S2_S3 = a.k_S2_S3 ∧
    (update_States_call a u).k_S3_S2 = a.k_S3_S2 ∧
    (update_States_call a u).k_S2_S3a = a.k_S2_S3a ∧
    (update_States_call a u).k_S3a_S2 = a.k_S3a_S2 ∧
    (update_States_call a u).k_S2a_S3a = a.k_S2a_S3a ∧
    (update_States_call a u).k_S3a_S2a = a.k_S3a_S2a ∧
    (update_States_call a u).k_S3_S4 = a.k_S3_S4 ∧
    (update_States_call a u).k_S4_S3 = a.k_S4_S3 ∧
    (update_States_call a u).k_S3a_S4 = a.k_S3a_S4 ∧
    (update_States_call a u).k_S4_S3a = a.k_S4_S3a ∧
    (update_States_call a u).k_S4_S5 = a.k_S4_S5 ∧
    (update_States_call a u).k_S5_S4 = a.k_S5_S4 ∧
    (update_States_call a u).k_S5_S6a = a.k_S5_S6a ∧
    (update_States_call a u).k_S6a_S5 = a.k_S6a_S5 ∧
    (update_States_call a u).k_S5_S6 = a.k_S5_S6 ∧
    (update_States_call a u).k_S6_S5 = a.k_S6_S5 ∧
    (update_States_call a u).k_S6a_S7 = a.k_S6a_S7 ∧
    (update_States_call a u).k_S7_S6a = a.k_S7_S6a ∧
    (update_States_call a u).k_S6_S7 = a.k_S6_S7 ∧
    (update_States_call a u).k_S7_S6 = a.k_S7_S6 ∧
    (update_States_call a u).k_S7_S8 = a.k_S7_S8 ∧
    (update_States_call a u).k_S8_S7 = a.k_S8_S7 ∧
    (update_States_call a u).k_S8_S9 = a.k_S8_S9 ∧
    (update_States_call a u).k_S9_S8 = a.k_S9_S8 ∧
    (update_States_call a u).k_S9_S10 = a.k_S9_S10 ∧
    (update_States_call a u).k_S10_S9 = a.k_S10_S9 ∧
    (update_States_call a u).k_S10_S11 = a.k_S10_S11 ∧
    (update_States_call a u).k_S11_S10 = a.k_S11_S10 ∧
    (update_States_call a u).k_S11_S0 = a.k_S11_S0 ∧
    (update_States_call a u).k_S0_S11 = a.k_S0_S11 ∧
    (update_States_call a u).MgADP_conc = a.MgADP_conc :=
  ⟨rfl, rfl, rfl, rfl, rfl, rfl, rfl, rfl, rfl, rfl, rfl, rfl, rfl, rfl,
   rfl, rfl, rfl, rfl, rfl, rfl, rfl, rfl, rfl, rfl, rfl, rfl, rfl, rfl,
   rfl, rfl, rfl, rfl, rfl, rfl, rfl, rfl, rfl, rfl, rfl, rfl, rfl, rfl,
   rfl, rfl, rfl, rfl⟩

/-- All by-reference float parameters of the 13-state `update_States`
variant (src/unnamed/part_002), in the order of its C signature.  This is
the overload that `get_Residual.cpp` declares (34 float arguments) and
links against; the mutable state is threaded separately. -/
structure Params13 where
  dt : ℚ
  k_S0_S1 : ℚ
  k_S0_S11 : ℚ
  Ca_cyt_conc : ℚ
  Ca_sr_conc : ℚ
  Pi_conc : ℚ
  MgATP_conc : ℚ
  MgADP_conc : ℚ
  k_S1_S2 : ℚ
  k_S1_S0 : ℚ
  k_S2_S3 : ℚ
  k_S2_S1 : ℚ
  k_S3_S4 : ℚ
  k_S3_S2 : ℚ
  k_S4_S5 : ℚ
  k_S4_S3 : ℚ
  k_S5_S6a : ℚ
  k_S5_S4 : ℚ
  k_S5_S6 : ℚ
  k_S6_S5 : ℚ
  k_S6a_S7 : ℚ
  k_S6a_S5 : ℚ
  k_S7_S8 : ℚ
  k_S7_S6a : ℚ
  k_S7_S6 : ℚ
  k_S6_S7 : ℚ
  k_S8_S9 : ℚ
  k_S8_S7 : ℚ
  k_S9_S10 : ℚ
  k_S9_S8 : ℚ
  k_S10_S11 : ℚ
  k_S10_S9 : ℚ
  k_S11_S0 : ℚ
  k_S11_S10 : ℚ

/-- A `Params13` record with every field zero. -/
def zero13 : Params13 :=
  { dt := 0, k_S0_S1 := 0, k_S0_S11 := 0, Ca_cyt_conc := 0, Ca_sr_conc := 0
    Pi_conc := 0, MgATP_conc := 0, MgADP_conc := 0, k_S1_S2 := 0, k_S1_S0 := 0
    k_S2_S3 := 0, k_S2_S1 := 0, k_S3_S4 := 0, k_S3_S2 := 0, k_S4_S5 := 0
    k_S4_S3 := 0, k_S5_S6a := 0, k_S5_S4 := 0, k_S5_S6 := 0, k_S6_S5 := 0
    k_S6a_S7 := 0, k_S6a_S5 := 0, k_S7_S8 := 0, k_S7_S6a := 0, k_S7_S6 := 0
    k_S6_S7 := 0, k_S8_S9 := 0, k_S8_S7 := 0, k_S9_S10 := 0, k_S9_S8 := 0
    k_S10_S11 := 0, k_S10_S9 := 0, k_S11_S0 := 0, k_S11_S10 := 0 }

/-- State-0 block of the 13-state machine (part_002 lines 169-181). -/
def vS0 (q : Params13) (s : ℕ) (randNum : ℚ) : ℕ :=
  if randNum < q.k_S0_S1 * q.Ca_cyt_conc * q.dt then 1
  else if randNum < q.k_S0_S1 * q.Ca_cyt_conc * q.dt + q.k_S0_S11 * q.Pi_conc * q.dt then 12
  else s

/-- State-1 block (part_002 lines 197-209). -/
def vS1 (q : Params13) (s : ℕ) (randNum : ℚ) : ℕ :=
  if randNum < q.k_S1_S2 * q.dt then 2
  else if randNum < q.k_S1_S2 * q.dt + q.k_S1_S0 * q.dt then 0
  else s

/-- State-2 block (part_002 lines 223-235). -/
def vS2 (q : Params13) (s : ℕ) (randNum : ℚ) : ℕ :=
  if randNum < q.k_S2_S3 * q.Ca_cyt_conc * q.dt then 3
  else if randNum < q.k_S2_S3 * q.Ca_cyt_conc * q.dt + q.k_S2_S1 * q.dt then 1
  else s

/-- State-3 block (part_002 lines 251-263). -/
def vS3 (q : Params13) (s : ℕ) (randNum : ℚ) : ℕ :=
  if randNum < q.k_S3_S4 * q.MgATP_conc * q.dt then 4
  else if randNum < q.k_S3_S4 * q.MgATP_conc * q.dt + q.k_S3_S2 * q.dt then 2
  else s

/-- State-4 block (part_002 lines 278-290). -/
def vS4 (q : Params13) (s : ℕ) (randNum : ℚ) : ℕ :=
  if randNum < q.k_S4_S5 * q.dt then 5
  else if randNum < q.k_S4_S5 * q.dt + q.k_S4_S3 * q.dt then 3
  else s

/-- State-5 block (part_002 lines 310-327): three-way branch. -/
def vS5 (q : Params13) (s : ℕ) (randNum : ℚ) : ℕ :=
  if randNum < q.k_S5_S6a * q.dt then 6
  else if randNum < q.k_S5_S6a * q.dt + q.k_S5_S4 * q.dt then 8
  else if randNum < q.k_S5_S6a * q.dt + q.k_S5_S4 * q.dt + q.k_S5_S6 * q.dt then 4
  else s

/-- State-6 block (part_002 lines 348-360). -/
def vS6 (q : Params13) (s : ℕ) (randNum : ℚ) : ℕ :=
  if randNum < q.k_S6a_S7 * q.dt then 7
  else if randNum < q.k_S6a_S7 * q.dt + q.k_S6a_S5 * q.dt then 5
  else s

/-- State-7 block (part_002 lines 380-397): three-way branch with the
ADP-gated backward edge. -/
def vS7 (q : Params13) (s : ℕ) (randNum : ℚ) : ℕ :=
  if randNum < q.k_S7_S8 * q.dt then 9
  else if randNum < q.k_S7_S8 * q.dt + q.k_S7_S6a * q.MgADP_conc * q.dt then 6
  else if randNum < q.k_S7_S8 * q.dt + q.k_S7_S6a * q.MgADP_conc * q.dt + q.k_S7_S6 * q.dt then 8
  else s

/-- State-8 block (part_002 lines 419-431). -/
def vS8 (q : Params13) (s : ℕ) (randNum : ℚ) : ℕ :=
  if randNum < q.k_S6_S7 * q.dt then 7
  else if randNum < q.k_S6_S7 * q.dt + q.k_S6_S5 * q.MgADP_conc * q.dt then 5
  else s

/-- State-9 block (part_002 lines 444-456). -/
def vS9 (q : Params13) (s : ℕ) (randNum : ℚ) : ℕ :=
  if randNum < q.k_S8_S9 * q.dt then 10
  else if randNum < q.k_S8_S9 * q.dt + q.k_S8_S7 * q.Ca_sr_conc * q.dt then 7
  else s

/-- State-10 block (part_002 lines 470-482).  Here the source assigns
`p2 = k_S9_S8 * dt` WITHOUT adding `p1`. -/
def vS10 (q : Params13) (s : ℕ) (randNum : ℚ) : ℕ :=
  if randNum < q.k_S9_S10 * q.dt then 11
  else if randNum < q.k_S9_S8 * q.dt then 9
  else s

/-- State-11 block (part_002 lines 495-507).  `p2` again omits `p1`. -/
def vS11 (q : Params13) (s : ℕ) (randNum : ℚ) : ℕ :=
  if randNum < q.k_S10_S11 * q.dt then 12
  else if randNum < q.k_S10_S9 * q.Ca_sr_conc * q.dt then 10
  else s

/-- State-12 block (part_002 lines 520-532).  `p2` again omits `p1`. -/
def vS12 (q : Params13) (s : ℕ) (randNum : ℚ) : ℕ :=
  if randNum < q.k_S11_S0 * q.dt then 0
  else if randNum < q.k_S11_S10 * q.dt then 11
  else s

/-- The 13-state Markov single-step update of src/unnamed/part_002
(the `update_States` overload called by `get_Residual.cpp`): states run
from 0 to 12; an unknown state falls through every block unchanged. -/
def update_States_v13 (q : Params13) (s : ℕ) (randNum : ℚ) : ℕ :=
  match s with
  | 0 => vS0 q 0 randNum
  | 1 => vS1 q 1 randNum
  | 2 => vS2 q 2 randNum
  | 3 => vS3 q 3 randNum
  | 4 => vS4 q 4 randNum
  | 5 => vS5 q 5 randNum
  | 6 => vS6 q 6 randNum
  | 7 => vS7 q 7 randNum
  | 8 => vS8 q 8 randNum
  | 9 => vS9 q 9 randNum
  | 10 => vS10 q 10 randNum
  | 11 => vS11 q 11 randNum
  | 12 => vS12 q 12 randNum
  | s => s

/-- Closure of the 13-state machine: a state below 13 steps to a state
below 13 (every literal target is at most 12 and fall-through keeps the
state). -/
lemma vS_lt_13_all (q : Params13) (u : ℚ) :
    vS0 q 0 u < 13 ∧ vS1 q 1 u < 13 ∧ vS2 q 2 u < 13 ∧ vS3 q 3 u < 13 ∧
    vS4 q 4 u < 13 ∧ vS5 q 5 u < 13 ∧ vS6 q 6 u < 13 ∧ vS7 q 7 u < 13 ∧
    vS8 q 8 u < 13 ∧ vS9 q 9 u < 13 ∧ vS10 q 10 u < 13 ∧
    vS11 q 11 u < 13 ∧ vS12 q 12 u < 13 := by
  unfold vS0 vS1 vS2 vS3 vS4 vS5 vS6 vS7 vS8 vS9 vS10 vS11 vS12
  refine ⟨?_, ?_, ?_, ?_, ?_, ?_, ?_, ?_, ?_, ?_, ?_, ?_, ?_⟩ <;>
    split_ifs <;> omega

lemma update_States_v13_lt (q : Params13) (s : ℕ) (u : ℚ) (h : s < 13) :
    update_States_v13 q s u < 13 := by
  obtain ⟨h0, h1, h2, h3, h4, h5, h6, h7, h8, h9, h10, h11, h12⟩ :=
    vS_lt_13_all q u
  unfold update_States_v13
  interval_cases s
  exacts [h0, h1, h2, h3, h4, h5, h6, h7, h8, h9, h10, h11, h12]

/-- The output-thinning constant of `get_Residual.cpp` (line 54): a state
sample is recorded every `save_jump` timesteps. -/
def save_jump : ℕ := 1000

/-- Occupancy histograms of `get_Residual.cpp`: `hist slot bin` is the
accumulated count of array number `slot` at time bin `bin`, where slots
0..12 are the thirteen arrays S0 S1 S2 S3 S4 S5 S6a S7 S6 S8 S9 S10 S11
in the order of the recording chain (lines 260-314).  The C arrays hold
floats, so counts are `ℚ`. -/
def bumpBin (slot bin : ℕ) (h : ℕ → ℕ → ℚ) : ℕ → ℕ → ℚ :=
  fun k b => if k = slot ∧ b = bin then h k b + 1 else h k b

/-- The recording chain of `get_Residual.cpp` (lines 260-314): state `k`
(0 ≤ k ≤ 12) increments the k-th array at the current bin; any other
state value falls through the whole `else if` chain without incrementing
anything. -/
def recordState (s bin : ℕ) (h : ℕ → ℕ → ℚ) : ℕ → ℕ → ℚ :=
  if s = 0 then bumpBin 0 bin h
  else if s = 1 then bumpBin 1 bin h
  else if s = 2 then bumpBin 2 bin h
  else if s = 3 then bumpBin 3 bin h
  else if s = 4 then bumpBin 4 bin h
  else if s = 5 then bumpBin 5 bin h
  else if s = 6 then bumpBin 6 bin h
  else if s = 7 then bumpBin 7 bin h
  else if s = 8 then bumpBin 8 bin h
  else if s = 9 then bumpBin 9 bin h
  else if s = 10 then bumpBin 10 bin h
  else if s = 11 then bumpBin 11 bin h
  else if s = 12 then bumpBin 12 bin h
  else h

/-- Per-molecule loop state of `get_Residual.cpp`: current Markov state,
the `output_count` thinning counter, and the shared histograms. -/
structure MolSt where
  state : ℕ
  output_count : ℕ
  hist : ℕ → ℕ → ℚ

/-- One iteration of the time-marching loop (lines 211-323): update the
state with the draw for step `n`, record the new state into bin
`n / save_jump` when `output_count` has reached `save_jump`, then reset
or advance `output_count`. -/
def molStep (q : Params13) (u : ℕ → ℚ) (n : ℕ) (st : MolSt) : MolSt :=
  let s := update_States_v13 q st.state (u n)
  let h := if st.output_count = save_jump
    then recordState s (n / save_jump) st.hist else st.hist
  let oc := if st.output_count = save_jump then 1 else st.output_count + 1
  ⟨s, oc, h⟩

/-- One molecule's trajectory (the rr-loop body, lines 203-326): the state
starts at 0, `output_count` starts at 10, and `T` timesteps are marched,
accumulating into the histograms `h0` shared across molecules. -/
def molRun (q : Params13) (u : ℕ → ℚ) (T : ℕ) (h0 : ℕ → ℕ → ℚ) : MolSt :=
  (List.range T).foldl (fun st n => molStep q u n st) ⟨0, 10, h0⟩

/-- The ensemble loop of `get_Residual.cpp` for ONE calcium point (the
rr-loop, lines 203-326): `M` molecules are simulated in turn, each with
its own stream `u rr : ℕ → ℚ` of random draws, all accumulating into the
histograms `h0` the point receives. -/
def ensemblePass (q : Params13) (u : ℕ → ℕ → ℚ) (M T : ℕ)
    (h0 : ℕ → ℕ → ℚ) : ℕ → ℕ → ℚ :=
  (List.range M).foldl (fun h rr => (molRun q (u rr) T h).hist) h0

/-- The histograms over the whole calcium loop of `get_Residual.cpp`
(lines 160-420): the thirteen arrays S0..S11 are declared once per call
(lines 140-152), BEFORE the loop over the `nCal` calcium points, and are
never cleared between points, so every point's ensemble pass accumulates
into the same arrays.  `q cal` is the parameter record in force at point
`cal` (the points differ in `Ca_cyt_conc`) and `u cal rr` that point's
draw streams.  In the C program the arrays start with indeterminate
stack contents; this embedding gives the program the benefit of a zero
start, and the conservation claim fails even so. -/
def get_Residual_hist (q : ℕ → Params13) (u : ℕ → ℕ → ℕ → ℚ)
    (nCal M T : ℕ) : ℕ → ℕ → ℚ :=
  (List.range nCal).foldl (fun h cal => ensemblePass (q cal) (u cal) M T h)
    (fun _ _ => 0)

/-- Total occupancy of time bin `b`: the histogram values summed over the
thirteen state arrays. -/
def sumSlots (h : ℕ → ℕ → ℚ) (b : ℕ) : ℚ :=
  ∑ k in Finset.range 13, h k b

/-- The deterministic evolution of the `output_count` counter together
with the number of recordings made into bin `b`: `(ocSaves b n).1` is the
counter before step `n` and `(ocSaves b n).2` counts the steps `m < n`
that record into bin `b`.  This is shared by every molecule because the
counter does not depend on the Markov state. -/
def ocSaves (b : ℕ) : ℕ → ℕ × ℕ
  | 0 => (10, 0)
  | n + 1 =>
    let p := ocSaves b n
    ((if p.1 = save_jump then 1 else p.1 + 1),
     p.2 + (if p.1 = save_jump ∧ n / save_jump = b then 1 else 0))

lemma sumSlots_bumpBin (slot bin b : ℕ) (hs : slot < 13) (h : ℕ → ℕ → ℚ) :
    sumSlots (bumpBin slot bin h) b =
      sumSlots h b + (if bin = b then 1 else 0) := by
  unfold sumSlots bumpBin
  by_cases hb : bin = b
  · subst hb
    have hterm : ∀ k ∈ Finset.range 13,
        (if k = slot ∧ bin = bin then h k bin + 1 else h k bin) =
          h k bin + (if k = slot then (1 : ℚ) else 0) := by
      intro k _
      by_cases hk : k = slot
      · simp [hk]
      · simp [hk]
    rw [Finset.sum_congr rfl hterm, Finset.sum_add_distrib,
      Finset.sum_ite_eq' (Finset.range 13) slot (fun _ => (1 : ℚ))]
    simp [Finset.mem_range.mpr hs]
  · have hterm : ∀ k ∈ Finset.range 13,
        (if k = slot ∧ b = bin then h k b + 1 else h k b) = h k b := by
      intro k _
      rw [if_neg (fun hc => hb hc.2.symm)]
    rw [Finset.sum_congr rfl hterm, if_neg hb, add_zero]

lemma sumSlots_recordState (s bin b : ℕ) (hs : s < 13) (h : ℕ → ℕ → ℚ) :
    sumSlots (recordState s bin h) b =
      sumSlots h b + (if bin = b then 1 else 0) := by
  have hrec : recordState s bin h = bumpBin s bin h := by
    interval_cases s <;> simp [recordState]
  rw [hrec, sumSlots_bumpBin s bin b hs h]

lemma molRun_invariant (q : Params13) (u : ℕ → ℚ) (h0 : ℕ → ℕ → ℚ)
    (b : ℕ) (T : ℕ) :
    (molRun q u T h0).state < 13 ∧
      (molRun q u T h0).output_count = (ocSaves b T).1 ∧
      sumSlots (molRun q u T h0).hist b =
        sumSlots h0 b + ((ocSaves b T).2 : ℚ) := by
  induction T with
  | zero =>
    refine ⟨by norm_num [molRun], by norm_num [molRun, ocSaves], ?_⟩
    norm_num [molRun, ocSaves]
  | succ n ih =>
    obtain ⟨hst, hoc, hsum⟩ := ih
    have hrun : molRun q u (n + 1) h0 = molStep q u n (molRun q u n h0) := by
      unfold molRun
      rw [List.range_succ, List.foldl_append, List.foldl_cons, List.foldl_nil]
    have hstep : update_States_v13 q (molRun q u n h0).state (u n) < 13 :=
      update_States_v13_lt q _ _ hst
    refine ⟨?_, ?_, ?_⟩
    · rw [hrun]; exact hstep
    · rw [hrun]
      show (if (molRun q u n h0).output_count = save_jump then 1
        else (molRun q u n h0).output_count + 1) = (ocSaves b (n + 1)).1
      rw [hoc]
      rfl
    · rw [hrun]
      show sumSlots (if (molRun q u n h0).output_count = save_jump
          then recordState (update_States_v13 q (molRun q u n h0).state (u n))
            (n / save_jump) (molRun q u n h0).hist
          else (molRun q u n h0).hist) b = _
      rw [hoc]
      show _ = sumSlots h0 b + (((ocSaves b n).2 +
        (if (ocSaves b n).1 = save_jump ∧ n / save_jump = b then 1 else 0) : ℕ) : ℚ)
      by_cases hsj : (ocSaves b n).1 = save_jump
      · rw [if_pos hsj, sumSlots_recordState _ _ _ hstep, hsum]
        by_cases hbb : n / save_jump = b
        · rw [if_pos hbb, if_pos ⟨hsj, hbb⟩]
          push_cast
          ring
        · rw [if_neg hbb, if_neg (fun hc => hbb hc.2)]
          push_cast
          ring
      · rw [if_neg hsj, hsum, if_neg (fun hc => hsj hc.1)]
        push_cast
        ring

lemma ensemblePass_sum (q : Params13) (u : ℕ → ℕ → ℚ) (T b : ℕ)
    (M : ℕ) (h0 : ℕ → ℕ → ℚ) :
    sumSlots (ensemblePass q u M T h0) b =
      sumSlots h0 b + (M : ℚ) * ((ocSaves b T).2 : ℚ) := by
  induction M generalizing h0 with
  | zero =>
    norm_num [ensemblePass]
  | succ m ih =>
    have hrun : ensemblePass q u (m + 1) T h0 =
        (molRun q (u m) T (ensemblePass q u m T h0)).hist := by
      unfold ensemblePass
      rw [List.range_succ, List.foldl_append, List.foldl_cons, List.foldl_nil]
    rw [hrun, (molRun_invariant q (u m) (ensemblePass q u m T h0) b T).2.2,
      ih h0]
    push_cast
    ring

/-- Even granting the zero start, every calcium point deposits a further
`M * saves` counts into every bin: after `nCal` points a bin recorded
once per run holds `nCal * M` counts, not `M`. -/
lemma get_Residual_hist_sum (q : ℕ → Params13) (u : ℕ → ℕ → ℕ → ℚ)
    (M T b : ℕ) (nCal : ℕ) :
    sumSlots (get_Residual_hist q u nCal M T) b =
      (nCal : ℚ) * (M : ℚ) * ((ocSaves b T).2 : ℚ) := by
  induction nCal with
  | zero =>
    norm_num [get_Residual_hist, sumSlots]
  | succ c ih =>
    have hrun : get_Residual_hist q u (c + 1) M T =
        ensemblePass (q c) (u c) M T (get_Residual_hist q u c M T) := by
      unfold get_Residual_hist
      rw [List.range_succ, List.foldl_append, List.foldl_cons, List.foldl_nil]
    rw [hrun, ensemblePass_sum, ih]
    push_cast
    ring

set_option maxRecDepth 40000 in
/-- C2: the conservation claim fails in `get_Residual`.  The histogram
arrays are declared before the calcium loop and never cleared, so the
passes for successive calcium points accumulate.  Concretely, with 2
calcium points, 1 molecule and 991 timesteps, bin 0 is recorded exactly
once per pass (at step 990) and, even with the arrays given a zero start
(in the C program they hold indeterminate stack contents), the thirteen
arrays sum to 2 at bin 0 after the second point, not to the ensemble
size 1 the claim demands. -/
theorem C2_histogram_accumulation_bug :
    (ocSaves 0 991).2 = 1 ∧
      sumSlots (get_Residual_hist (fun _ => zero13) (fun _ _ _ => 0) 2 1 991)
          0 = (2 : ℚ) ∧
      (2 : ℚ) ≠ 1 := by
  have hsaves : (ocSaves 0 991).2 = 1 := by decide
  refine ⟨hsaves, ?_, by norm_num⟩
  rw [get_Residual_hist_sum (fun _ => zero13) (fun _ _ _ => 0) 1 991 0 2,
    hsaves]
  norm_num

/-- The experimental 16-point normalized calcium-binding reference curve
`norm_bound_Ca_Exp` of `get_Residual.cpp` (lines 120-135); the same table
appears in part_000 (lines 123-138). -/
def norm_bound_Ca_Exp : Fin 16 → ℚ :=
  ![0.056698042688369, 0.100474048769127, 0.159057553309407,
    0.23871761522272, 0.30582603399111, 0.385634231598201,
    0.459159901847406, 0.551640962566692, 0.63566454650982,
    0.715472730890509, 0.778419740266281, 0.835003303161443,
    0.885304272566714, 0.935510990636819, 0.970991050011721, 1]

/-- The running maximum `boundSS_max_temp` of `get_Residual.cpp`: it
starts at 0 and is raised to `ss_bound_Ca[cal]` whenever that value is
strictly larger (lines 102 and 416-419), over the 16 calcium points. -/
def boundSS_max (sim : Fin 16 → ℚ) : ℚ :=
  (List.finRange 16).foldl (fun m cal => if sim cal > m then sim cal else m) 0

/-- The normalization loop of `get_Residual.cpp` (lines 424-427): each
point of the simulated bound-calcium curve is divided by the running
maximum.  There is no guard against a zero maximum. -/
def norm_ss_bound_Ca (sim : Fin 16 → ℚ) (cal : Fin 16) : ℚ :=
  sim cal / boundSS_max sim

/-- The residual accumulation loop of `get_Residual.cpp` (lines 432-437):
sum of squared differences between the reference curve and the normalized
simulated curve. -/
def residual_temp (sim : Fin 16 → ℚ) : ℚ :=
  (List.finRange 16).foldl
    (fun r cc => r + (norm_bound_Ca_Exp cc - norm_ss_bound_Ca sim cc) ^ 2) 0

/-- The value returned by `get_Residual` (line 438-442):
`pow(residual_temp, 0.5)`. -/
noncomputable def get_Residual_resid (sim : Fin 16 → ℚ) : ℝ :=
  Real.sqrt ((residual_temp sim : ℝ))

/-- The residual accumulation loop of the MPI-variant `get_Residual`
(part_000 lines 481-485) and of `get_Residual_Pi.cpp` (lines 445-449):
the already-normalized point is divided by the maximum A SECOND TIME
inside the squared difference. -/
def residual_temp_mpi (sim : Fin 16 → ℚ) : ℚ :=
  (List.finRange 16).foldl
    (fun r cc => r +
      (norm_bound_Ca_Exp cc - norm_ss_bound_Ca sim cc / boundSS_max sim) ^ 2) 0

/-- The value returned by the MPI-variant `get_Residual` (part_000 line
486). -/
noncomputable def get_Residual_resid_mpi (sim : Fin 16 → ℚ) : ℝ :=
  Real.sqrt ((residual_temp_mpi sim : ℝ))

lemma foldl_add_map (f : Fin 16 → ℚ) (l : List (Fin 16)) (c : ℚ) :
    l.foldl (fun r cc => r + f cc) c = c + (l.map f).sum := by
  induction l generalizing c with
  | nil => simp
  | cons x xs ih => simp [ih, add_assoc]

lemma foldl_add_eq_sum (f : Fin 16 → ℚ) :
    (List.finRange 16).foldl (fun r cc => r + f cc) 0 = ∑ cc, f cc := by
  rw [foldl_add_map, Fin.sum_univ_def, zero_add]

/-- C4 (amended): `get_Residual` of `get_Residual.cpp` returns exactly
the square root of the sum, over the 16 grid points, of the squared
difference between the reference value and the simulated curve divided
once by its own maximum, and the returned value is non-negative; the
MPI-variant `get_Residual` (part_000) and `get_Residual_Pi` instead
divide the normalized point by the maximum a second time inside the sum
(still returning a non-negative value). -/
theorem C4_residual_formula (sim : Fin 16 → ℚ) :
    get_Residual_resid sim =
      Real.sqrt (∑ cc : Fin 16, ((norm_bound_Ca_Exp cc : ℝ) -
        (sim cc : ℝ) / (boundSS_max sim : ℝ)) ^ 2) ∧
    0 ≤ get_Residual_resid sim ∧
    get_Residual_resid_mpi sim =
      Real.sqrt (∑ cc : Fin 16, ((norm_bound_Ca_Exp cc : ℝ) -
        (sim cc : ℝ) / (boundSS_max sim : ℝ) / (boundSS_max sim : ℝ)) ^ 2) ∧
    0 ≤ get_Residual_resid_mpi sim := by
  refine ⟨?_, Real.sqrt_nonneg _, ?_, Real.sqrt_nonneg _⟩
  · unfold get_Residual_resid residual_temp
    rw [foldl_add_eq_sum]
    congr 1
    push_cast [norm_ss_bound_Ca]
    rfl
  · unfold get_Residual_resid_mpi residual_temp_mpi
    rw [foldl_add_eq_sum]
    congr 1
    push_cast [norm_ss_bound_Ca]
    rfl

set_option maxRecDepth 8000 in
/-- List of the sixteen grid indices, for concrete evaluation of the
folds. -/
lemma finRange16 :
    List.finRange 16 = [0, 1, 2, 3, 4, 5, 6, 7, 8, 9, 10, 11, 12, 13, 14,
      15] := by
  decide

lemma residual_temp_mpi_nonneg (sim : Fin 16 → ℚ) :
    0 ≤ residual_temp_mpi sim := by
  unfold residual_temp_mpi
  rw [foldl_add_eq_sum]
  positivity

set_option maxRecDepth 8000 in
/-- C4 counterexample: on the constant simulated curve with value 2 at
every grid point (maximum 2), the MPI-variant `get_Residual` does NOT
return the square root of the sum of squared differences against the
once-normalized curve: it divides by the maximum twice, giving
`e - 1/2` instead of `e - 1` inside each square, and the two sums
differ. -/
theorem C4_counterexample :
    get_Residual_resid_mpi (fun _ => 2) ≠
      Real.sqrt (∑ cc : Fin 16, ((norm_bound_Ca_Exp cc : ℝ) -
        ((2 : ℚ) : ℝ) / (boundSS_max (fun _ => 2) : ℝ)) ^ 2) := by
  have hmax : boundSS_max (fun _ => 2) = 2 := by
    unfold boundSS_max
    rw [finRange16]
    norm_num
  have hlt : residual_temp_mpi (fun _ => 2) <
      ∑ cc : Fin 16, (norm_bound_Ca_Exp cc - 2 / boundSS_max (fun _ => 2)) ^ 2 := by
    unfold residual_temp_mpi
    rw [foldl_add_eq_sum]
    unfold norm_ss_bound_Ca
    rw [hmax]
    simp only [Fin.sum_univ_succ, Finset.univ_unique, Fin.default_eq_zero,
      Finset.sum_singleton]
    norm_num [norm_bound_Ca_Exp]
  refine ne_of_lt ?_
  have hcast : (∑ cc : Fin 16, ((norm_bound_Ca_Exp cc : ℝ) -
      ((2 : ℚ) : ℝ) / (boundSS_max (fun _ => 2) : ℝ)) ^ 2) =
      ((∑ cc : Fin 16, (norm_bound_Ca_Exp cc - 2 / boundSS_max (fun _ => 2)) ^ 2 : ℚ) : ℝ) := by
    push_cast
    rfl
  rw [hcast]
  unfold get_Residual_resid_mpi
  exact Real.sqrt_lt_sqrt (by exact_mod_cast residual_temp_mpi_nonneg _)
    (by exact_mod_cast hlt)

set_option maxRecDepth 8000 in
/-- C5: `get_Residual` has no guard for the degenerate all-zero curve.
With every simulated bound-fraction equal to zero the running maximum is
exactly 0, the normalization loop divides each point by that zero
maximum (0/0, a NaN in the C floating-point program; rational division
by zero in this embedding), and the function still returns a residual
value, namely the square root of the sum of the squared reference values
computed from those divisions: no error is detected or signalled. -/
theorem C5_no_zero_max_guard :
    boundSS_max (fun _ => 0) = 0 ∧
    (∀ cc : Fin 16, norm_ss_bound_Ca (fun _ => 0) cc = 0 / 0) ∧
    get_Residual_resid (fun _ => 0) =
      Real.sqrt (∑ cc : Fin 16, ((norm_bound_Ca_Exp cc : ℝ)) ^ 2) := by
  have hmax : boundSS_max (fun _ => 0) = 0 := by
    unfold boundSS_max
    rw [finRange16]
    norm_num
  refine ⟨hmax, ?_, ?_⟩
  · intro cc
    unfold norm_ss_bound_Ca
    rw [hmax]
  · unfold get_Residual_resid residual_temp
    rw [foldl_add_eq_sum]
    congr 1
    unfold norm_ss_bound_Ca
    rw [hmax]
    push_cast
    norm_num

/-- Number of PSO particles in the serial driver (part_001 line 56). -/
def n_particles_PSO : ℕ := 100

/-- Lower bound on the first fitted rate (part_001 line 127). -/
def k_S0_S1_lower : ℚ := 0.1 * 4e7

/-- Upper bound on the first fitted rate (line 128). -/
def k_S0_S1_upper : ℚ := 10 * 4e7

/-- Lower bound on the second fitted rate (line 129). -/
def k_S2_S3_lower : ℚ := 0.1 * 1e8

/-- Upper bound on the second fitted rate (line 130). -/
def k_S2_S3_upper : ℚ := 10 * 1e8

/-- Lower bound on the third fitted rate (line 131). -/
def k_S7_S8_lower : ℚ := 0.1 * 500

/-- Upper bound on the third fitted rate (line 132). -/
def k_S7_S8_upper : ℚ := 10 * 500

/-- Lower bound on the fourth fitted rate (line 133). -/
def k_S9_S10_lower : ℚ := 0.1 * 6e2

/-- Upper bound on the fourth fitted rate (line 134). -/
def k_S9_S10_upper : ℚ := 10 * 6e2

/-- The four configured lower bounds, indexed in the order the code
initializes the four fitted rates (k_S0_S1, k_S2_S3, k_S7_S8,
k_S9_S10). -/
def lowerB : Fin 4 → ℚ :=
  ![k_S0_S1_lower, k_S2_S3_lower, k_S7_S8_lower, k_S9_S10_lower]

/-- The four configured upper bounds, same order. -/
def upperB : Fin 4 → ℚ :=
  ![k_S0_S1_upper, k_S2_S3_upper, k_S7_S8_upper, k_S9_S10_upper]

/-- Initial particle positions (part_001 lines 208-211):
`lower + (upper - lower) * rand()/RAND_MAX`, one draw `r i d` per
particle and dimension. -/
def X_PSO_init (r : Fin 100 → Fin 4 → ℚ) (i : Fin 100) (d : Fin 4) : ℚ :=
  lowerB d + (upperB d - lowerB d) * r i d

/-- Initial particle velocities (lines 223-226):
`0.25 * (upper - lower) * rand()/RAND_MAX`. -/
def V_PSO_init (r : Fin 100 → Fin 4 → ℚ) (i : Fin 100) (d : Fin 4) : ℚ :=
  0.25 * (upperB d - lowerB d) * r i d

/-- Initial personal-best residuals (line 284): a copy of the initial
residual vector. -/
def Res_pbest_init (res : Fin 100 → ℚ) (i : Fin 100) : ℚ := res i

/-- Initial personal-best positions (lines 302-312): a copy of the
initial positions. -/
def pbest_init (r : Fin 100 → Fin 4 → ℚ) (i : Fin 100) (d : Fin 4) : ℚ :=
  X_PSO_init r i d

/-- The global-best scan of the serial driver: starting from
`(residual_cost_func[0], 0)`, every particle with a strictly smaller
residual replaces the pair.  The same loop shape appears at
initialization (lines 273-285) and as the per-iteration minimum scan
(lines 404-416). -/
def gbestScan (res : Fin 100 → ℚ) : ℚ × Fin 100 :=
  (List.finRange 100).foldl
    (fun acc i => if res i < acc.1 then (res i, i) else acc) (res 0, 0)

/-- The initial global-best residual `Res_gbest`. -/
def Res_gbest_init (res : Fin 100 → ℚ) : ℚ := (gbestScan res).1

/-- The index `i_Res_gbest` attaining the initial global best. -/
def i_Res_gbest (res : Fin 100 → ℚ) : Fin 100 := (gbestScan res).2

/-- The initial global-best position (lines 291-294): the position of
the particle at index `i_Res_gbest`. -/
def gbest_pos_init (r : Fin 100 → Fin 4 → ℚ) (res : Fin 100 → ℚ)
    (d : Fin 4) : ℚ :=
  X_PSO_init r (i_Res_gbest res) d

lemma gbestScan_aux (res : Fin 100 → ℚ) (l : List (Fin 100))
    (acc : ℚ × Fin 100) (hacc : acc.1 = res acc.2) :
    (l.foldl (fun acc i => if res i < acc.1 then (res i, i) else acc)
        acc).1 =
      res (l.foldl (fun acc i => if res i < acc.1 then (res i, i) else acc)
        acc).2 ∧
    (l.foldl (fun acc i => if res i < acc.1 then (res i, i) else acc)
        acc).1 ≤ acc.1 ∧
    ∀ j ∈ l,
      (l.foldl (fun acc i => if res i < acc.1 then (res i, i) else acc)
        acc).1 ≤ res j := by
  induction l generalizing acc with
  | nil => exact ⟨hacc, le_refl _, by simp⟩
  | cons x xs ih =>
    simp only [List.foldl_cons]
    by_cases hx : res x < acc.1
    · rw [if_pos hx]
      obtain ⟨h1, h2, h3⟩ := ih (res x, x) rfl
      refine ⟨h1, le_trans h2 (le_of_lt hx), ?_⟩
      intro j hj
      rcases List.mem_cons.mp hj with hj | hj
      · subst hj
        exact h2
      · exact h3 j hj
    · rw [if_neg hx]
      obtain ⟨h1, h2, h3⟩ := ih acc hacc
      refine ⟨h1, h2, ?_⟩
      intro j hj
      rcases List.mem_cons.mp hj with hj | hj
      · subst hj
        exact le_trans h2 (not_lt.mp hx)
      · exact h3 j hj

lemma gbestScan_achieves (res : Fin 100 → ℚ) :
    (gbestScan res).1 = res (gbestScan res).2 :=
  (gbestScan_aux res (List.finRange 100) (res 0, 0) rfl).1

lemma gbestScan_le (res : Fin 100 → ℚ) (i : Fin 100) :
    (gbestScan res).1 ≤ res i :=
  (gbestScan_aux res (List.finRange 100) (res 0, 0) rfl).2.2 i
    (List.mem_finRange i)

lemma lowerB_le_upperB (d : Fin 4) : lowerB d ≤ upperB d := by
  fin_cases d <;>
    norm_num [lowerB, upperB, k_S0_S1_lower, k_S0_S1_upper, k_S2_S3_lower,
      k_S2_S3_upper, k_S7_S8_lower, k_S7_S8_upper, k_S9_S10_lower,
      k_S9_S10_upper]

/-- C8: at swarm initialization, with every random draw in [0,1], each
particle's position component lies inside its configured
[lower, upper] bound, each velocity component lies in
[0, 0.25*(upper-lower)], the personal bests are copies of the initial
positions and residuals, and the global best is the minimum of the
initial residuals together with the position of the particle attaining
it. -/
theorem C8_swarm_init (rX rV : Fin 100 → Fin 4 → ℚ) (res : Fin 100 → ℚ)
    (hX : ∀ i d, 0 ≤ rX i d ∧ rX i d ≤ 1)
    (hV : ∀ i d, 0 ≤ rV i d ∧ rV i d ≤ 1) :
    (∀ i d, lowerB d ≤ X_PSO_init rX i d ∧ X_PSO_init rX i d ≤ upperB d) ∧
    (∀ i d, 0 ≤ V_PSO_init rV i d ∧
      V_PSO_init rV i d ≤ 0.25 * (upperB d - lowerB d)) ∧
    (∀ i, Res_pbest_init res i = res i ∧
      ∀ d, pbest_init rX i d = X_PSO_init rX i d) ∧
    (Res_gbest_init res = res (i_Res_gbest res) ∧
      (∀ i, Res_gbest_init res ≤ res i) ∧
      ∀ d, gbest_pos_init rX res d = X_PSO_init rX (i_Res_gbest res) d) := by
  refine ⟨?_, ?_, fun i => ⟨rfl, fun d => rfl⟩,
    gbestScan_achieves res, gbestScan_le res, fun d => rfl⟩
  · intro i d
    have hlu := lowerB_le_upperB d
    have h0 := (hX i d).1
    have h1 := (hX i d).2
    constructor
    · have : 0 ≤ (upperB d - lowerB d) * rX i d :=
        mul_nonneg (by linarith) h0
      unfold X_PSO_init
      linarith
    · have : (upperB d - lowerB d) * rX i d ≤ (upperB d - lowerB d) * 1 :=
        mul_le_mul_of_nonneg_left h1 (by linarith)
      unfold X_PSO_init
      linarith
  · intro i d
    have hlu := lowerB_le_upperB d
    have h0 := (hV i d).1
    have h1 := (hV i d).2
    constructor
    · exact mul_nonneg (mul_nonneg (by norm_num) (by linarith)) h0
    · have : 0.25 * (upperB d - lowerB d) * rV i d ≤
          0.25 * (upperB d - lowerB d) * 1 :=
        mul_le_mul_of_nonneg_left h1
          (mul_nonneg (by norm_num) (by linarith))
      unfold V_PSO_init
      linarith

/-- C8 witness: the initialization theorem applied at the constant draw
1/2 and the residual vector `res i = i`, specialized to particle 0,
dimension 0 and particle 5. -/
theorem C8_swarm_init_witness :
    lowerB 0 ≤ X_PSO_init (fun _ _ => 1/2) 0 0 ∧
    X_PSO_init (fun _ _ => 1/2) 0 0 ≤ upperB 0 ∧
    0 ≤ V_PSO_init (fun _ _ => 1/2) 0 0 ∧
    Res_gbest_init (fun i : Fin 100 => (i.1 : ℚ)) ≤ (5 : Fin 100).1 := by
  obtain ⟨hpos, hvel, hpb, hach, hle, hposg⟩ :=
    C8_swarm_init (fun _ _ => 1/2) (fun _ _ => 1/2)
      (fun i : Fin 100 => (i.1 : ℚ))
      (fun i d => ⟨by norm_num, by norm_num⟩)
      (fun i d => ⟨by norm_num, by norm_num⟩)
  exact ⟨(hpos 0 0).1, (hpos 0 0).2, (hvel 0 0).1, hle 5⟩

/-- Iteration budget of the serial swarm loop (part_001 line 321); the
loop itself runs `it = 0 .. max_iter` inclusive (line 332). -/
def max_iter : ℕ := 100

/-- The maximal inertia weight (line 327). -/
def w_max : ℚ := 1.0

/-- The minimal inertia weight (line 328). -/
def w_min : ℚ := 0.3

/-- The inertia-weight increment (line 329):
`dw = (w_max - w_min)/max_iter`. -/
def dw : ℚ := (w_max - w_min) / (max_iter : ℚ)

/-- The inertia weight used by every velocity update of iteration `it`
(line 334): `w = w_min + it*dw`.  The MPI driver (part_001 line 893)
computes the same formula with max_iter = 20. -/
def w_sched (it : ℕ) : ℚ := w_min + (it : ℚ) * dw

/-- C3 counterexample: at the first iteration (it = 0) the inertia
weight is w_min = 0.3, not w_max = 1.0, and by the last iteration it has
risen to 1.0: the schedule increases linearly instead of decreasing. -/
theorem C3_counterexample :
    w_sched 0 = 3/10 ∧ w_sched 0 ≠ 1 ∧ w_sched max_iter = 1 ∧
      w_sched 0 < w_sched max_iter := by
  norm_num [w_sched, w_min, w_max, dw, max_iter]

/-- C3 (amended): across the swarm iterations the inertia weight
increases linearly from w_min = 0.3 at the first iteration (it = 0) to
w_max = 1.0 at the last (it = max_iter; the loop runs max_iter + 1
iterations): it is strictly increasing step by step with the endpoints
w_min and w_max. -/
theorem C3_inertia_schedule (it : ℕ) (h : it < max_iter) :
    w_sched 0 = w_min ∧ w_sched max_iter = w_max ∧
      w_sched it < w_sched (it + 1) := by
  refine ⟨by norm_num [w_sched], ?_, ?_⟩
  · norm_num [w_sched, w_min, w_max, dw, max_iter]
  · unfold w_sched
    have hdw : (0 : ℚ) < dw := by norm_num [dw, w_min, w_max, max_iter]
    have : ((it : ℚ)) * dw < ((it : ℚ) + 1) * dw := by nlinarith
    push_cast
    linarith

/-- C3 witness: the amended schedule theorem applied at iteration 7. -/
theorem C3_inertia_schedule_witness :
    7 < max_iter ∧ (w_sched 0 = w_min ∧ w_sched max_iter = w_max ∧
      w_sched 7 < w_sched 8) :=
  ⟨by norm_num [max_iter], C3_inertia_schedule 7 (by norm_num [max_iter])⟩

/-- The update-or-keep rule for the global best (part_001 lines
404-436): after all particles of an iteration are re-evaluated, the
iteration minimum `min_Res` (the same scan as `gbestScan`) replaces the
stored global best exactly when `min_Res ≤ Res_gbest`. -/
def gbestStep (g : ℚ) (res : Fin 100 → ℚ) : ℚ :=
  if (gbestScan res).1 ≤ g then (gbestScan res).1 else g

/-- `total_gbest[it]` (line 438): the stored global-best residual at the
end of swarm iteration `it`, starting from the initial global best `g0`
and applying the update-or-keep rule with each iteration's residual
vector `res it`. -/
def total_gbest (g0 : ℚ) (res : ℕ → Fin 100 → ℚ) : ℕ → ℚ
  | 0 => gbestStep g0 (res 0)
  | it + 1 => gbestStep (total_gbest g0 res it) (res (it + 1))

/-- C7: the global-best residual recorded at the end of each swarm
iteration is monotonically non-increasing in the iteration index, for
every initial global best and every sequence of residual vectors. -/
theorem C7_gbest_monotone (g0 : ℚ) (res : ℕ → Fin 100 → ℚ) (it : ℕ) :
    total_gbest g0 res (it + 1) ≤ total_gbest g0 res it := by
  show gbestStep (total_gbest g0 res it) (res (it + 1)) ≤ _
  unfold gbestStep
  split_ifs with h
  · exact h
  · exact le_refl _

/-- Number of particles of the MPI driver (part_001 MPI section, line
559). -/
def n_particles_MPI : ℕ := 50

/-- Start of worker `id`'s contiguous particle range (line 745). -/
def startP (p id : ℕ) : ℕ := id * n_particles_MPI / p

/-- End of worker `id`'s contiguous particle range (line 746). -/
def endP (p id : ℕ) : ℕ := (id + 1) * n_particles_MPI / p

/-- Worker-local particle positions after the MPI initialization loop
(lines 755-784): the file-scope `_local` arrays are zero-initialized
and the loop writes `lower + (upper-lower)*rand()` only at the indices
of the worker's own range. -/
def X_local_init (p id : ℕ) (lower upper : ℚ) (r : ℕ → ℚ) (i : ℕ) : ℚ :=
  if startP p id ≤ i ∧ i < endP p id
  then lower + (upper - lower) * r i else 0

/-- One velocity update of the MPI iteration loop (lines 904-910) for
particle `i`, with that worker's own draws `r1 i` and `r2 i`. -/
def V_iter (w c1 c2 : ℚ) (r1 r2 pbest : ℕ → ℚ) (gbest : ℚ)
    (X V : ℕ → ℚ) (i : ℕ) : ℚ :=
  w * V i + c1 * r1 i * (pbest i - X i) + c2 * r2 i * (gbest - X i)

/-- Worker-local positions written by the MPI iteration loop: the
particle loop runs over ALL `i` in [0,50) on every worker (line 894) and
line 922 assigns `X_local[i] = X[i] + V[i]` at every index, not only in
the worker's own range. -/
def X_local_iter (X Vn : ℕ → ℚ) (i : ℕ) : ℚ := X i + Vn i

/-- The `MPI_Allreduce(..., MPI_SUM, ...)` combination of the position
arrays (lines 823-826 and 956-959): element-wise sum over the `p`
workers' local arrays. -/
def allreduceSum (p : ℕ) (loc : ℕ → ℕ → ℚ) (i : ℕ) : ℚ :=
  ∑ id in Finset.range p, loc id i

/-- The iteration-loop velocity at the concrete instance used below:
all-zero random draws, personal and global best equal to the position,
so every velocity update returns 0 and the local position assignment
copies `X`. -/
def vIterConcrete : ℕ → ℚ :=
  V_iter 1 (21/20) (21/20) (fun _ => 0) (fun _ => 0) (fun _ => 1) 1
    (fun _ => 1) (fun _ => 0)

/-- C9: with 2 workers, worker 0 owns exactly particles [0,25), and
after initialization its local buffer is 0 at index 49 (outside its
range) as the claim requires; but after one pass of the iteration loop
the same worker's local buffer holds the full position value 1 ≠ 0 at
index 49, because the loop writes every particle on every worker, and
the sum-reduction then returns 2 ≠ 1 at that index instead of
reconstructing the position array. -/
theorem C9_partition_bug_eval :
    startP 2 0 = 0 ∧ endP 2 0 = 25 ∧
    X_local_init 2 0 k_S0_S1_lower k_S0_S1_upper (fun _ => 1/2) 49 = 0 ∧
    X_local_iter (fun _ => 1) vIterConcrete 49 = 1 ∧ (1 : ℚ) ≠ 0 ∧
    allreduceSum 2 (fun _ => X_local_iter (fun _ => 1) vIterConcrete) 49
      = 2 ∧ (2 : ℚ) ≠ 1 := by
  refine ⟨by norm_num [startP, n_particles_MPI],
    by norm_num [endP, n_particles_MPI], ?_, ?_, by norm_num, ?_,
    by norm_num⟩
  · unfold X_local_init
    rw [if_neg]
    norm_num [startP, endP, n_particles_MPI]
  · norm_num [X_local_iter, vIterConcrete, V_iter]
  · norm_num [allreduceSum, Finset.sum_range_succ, X_local_iter,
      vIterConcrete, V_iter]

end SERCA
